import Mathlib

/-
Verification development for the delivery route optimizer of SupplyNetAI
(backend/app/services/routing_service.py, class RouteOptimizationService).

The Python source is shallowly embedded below.  Conventions of the embedding:
* Python floats are modelled as exact rationals (ℚ) in the bookkeeping code and
  as real numbers (ℝ) where the source computes with transcendental functions
  (math.sin, math.cos, math.sqrt, math.atan2 inside _calculate_distance).
* Python ints are ℤ; list indexing `xs[i]` is `List.getD i default` (the claims
  are settled at indices that are in range, where getD agrees with indexing).
* `datetime.now()` at the start of every route composition is modelled as time
  origin 0; `estimated_arrival` values are offsets in minutes from that origin.
* Dict fields read with `.get(key, default)` are modelled as always-present
  structure fields (the defaults only matter for malformed input dicts).
* The OR-Tools solver is external to the repository.  Its solution is an
  abstract `SolverOutcome`; what the repository itself does (dimension
  registration, route extraction, result construction) is embedded from the
  source.  `addDimension` models the documented OR-Tools behaviour of
  `RoutingModel.AddDimension*`: the call returns false and leaves the model
  unchanged when a dimension with the requested name already exists.
-/

namespace SupplyNet

/-! ## Numeric helpers: Python `int()` and `round()` -/

/-- Python `int()` on a real value: truncation toward zero. -/
noncomputable def pyInt (x : ℝ) : ℤ := if 0 ≤ x then ⌊x⌋ else -⌊-x⌋

/-- Round to the nearest integer, ties to even (Python `round` on exact values). -/
def roundHalfEven {α : Type} [LinearOrderedField α] [FloorRing α] (x : α) : ℤ :=
  if x - ⌊x⌋ < 1 / 2 then ⌊x⌋
  else if 1 / 2 < x - ⌊x⌋ then ⌊x⌋ + 1
  else if ⌊x⌋ % 2 = 0 then ⌊x⌋ else ⌊x⌋ + 1

/-- Python `round(x, n)`: banker's rounding to `n` decimal digits. -/
def pyRound {α : Type} [LinearOrderedField α] [FloorRing α] (n : ℕ) (x : α) : α :=
  (roundHalfEven (x * 10 ^ n) : α) / 10 ^ n

/-! ## Data model

Caller-supplied dicts of `optimize_routes`: the warehouse dict and the
delivery-point dicts (keys `lat`, `lng`, `demand_qty`, `client_id`,
`customer_name`, `warehouse_id`, `name`). -/

structure Location where
  lat : ℚ
  lng : ℚ
deriving DecidableEq

instance : Inhabited Location := ⟨⟨0, 0⟩⟩

structure Warehouse where
  lat : ℚ
  lng : ℚ
  warehouse_id : String
  name : String
deriving DecidableEq

structure DeliveryPoint where
  lat : ℚ
  lng : ℚ
  demand_qty : ℤ
  client_id : String
  customer_name : String
deriving DecidableEq

instance : Inhabited DeliveryPoint := ⟨⟨0, 0, 0, "", ""⟩⟩

/-- `locations = [warehouse_data] + delivery_points` (optimize_routes line 38). -/
def toLocation (p : DeliveryPoint) : Location := ⟨p.lat, p.lng⟩

def warehouseLocation (w : Warehouse) : Location := ⟨w.lat, w.lng⟩

/-! ## Distance model (`_calculate_distance`, `_create_distance_matrix`) -/

/-- `math.radians` : degrees to radians. -/
noncomputable def radians (x : ℝ) : ℝ := x * Real.pi / 180

/-- `math.atan2 y x`, as the argument of the complex number `x + y*i`. -/
noncomputable def atan2 (y x : ℝ) : ℝ := Complex.arg ⟨x, y⟩

/-- The haversine intermediate `a` of `_calculate_distance`, on coordinates
already converted to radians. -/
noncomputable def hav_a (lat1_rad lng1_rad lat2_rad lng2_rad : ℝ) : ℝ :=
  Real.sin ((lat2_rad - lat1_rad) / 2) ^ 2 +
    Real.cos lat1_rad * Real.cos lat2_rad * Real.sin ((lng2_rad - lng1_rad) / 2) ^ 2

/-- `_calculate_distance(lat1, lng1, lat2, lng2)`: haversine distance in miles,
Earth radius 3959. -/
noncomputable def calculate_distance (lat1 lng1 lat2 lng2 : ℝ) : ℝ :=
  let a := hav_a (radians lat1) (radians lng1) (radians lat2) (radians lng2)
  let c := 2 * atan2 (Real.sqrt a) (Real.sqrt (1 - a))
  3959 * c

/-- `_create_distance_matrix(locations)`: the n×n matrix is initialized with
zeros and every off-diagonal entry is set to `int(distance)`. -/
noncomputable def create_distance_matrix (locations : List Location) : List (List ℤ) :=
  (List.range locations.length).map fun i =>
    (List.range locations.length).map fun j =>
      if i = j then 0
      else
        let li := locations.getD i default
        let lj := locations.getD j default
        pyInt (calculate_distance (li.lat : ℝ) (li.lng : ℝ) (lj.lat : ℝ) (lj.lng : ℝ))

/-- `matrix[i][j]` on a list-of-lists matrix (0 when out of range). -/
def matEntry (m : List (List ℤ)) (i j : ℕ) : ℤ := (m.getD i []).getD j 0

/-! ## Service state (`RouteOptimizationService.__init__` and the per-call
mutation of `optimize_routes` lines 32-35) -/

/-- The mutable instance fields set in `__init__` and overwritten by
`optimize_routes` whenever `vehicle_constraints` is supplied. -/
structure ServiceState where
  vehicle_capacity : ℤ
  max_route_time : ℤ
  average_speed : ℤ
  service_time_per_stop : ℤ
deriving DecidableEq

/-- `__init__`: capacity 1000, max route time 480 minutes, speed 50 mph,
service time 15 minutes per stop. -/
def initState : ServiceState :=
  { vehicle_capacity := 1000, max_route_time := 480,
    average_speed := 50, service_time_per_stop := 15 }

/-- The optional `vehicle_constraints` dict (keys `capacity`, `max_time`,
`speed`; each may be absent). -/
structure VehicleConstraints where
  capacity : Option ℤ
  max_time : Option ℤ
  speed : Option ℤ
deriving DecidableEq

/-- Lines 32-35 of `optimize_routes`: `self.vehicle_capacity =
vehicle_constraints.get('capacity', self.vehicle_capacity)` and likewise for
`max_time` and `speed`; nothing is written when the argument is `None`. -/
def applyConstraints (s : ServiceState) : Option VehicleConstraints → ServiceState
  | none => s
  | some c =>
    { s with
      vehicle_capacity := c.capacity.getD s.vehicle_capacity,
      max_route_time := c.max_time.getD s.max_route_time,
      average_speed := c.speed.getD s.average_speed }

/-! ## The routing model handed to OR-Tools (`_solve_vrp` lines 128-179) -/

/-- The two transit callbacks registered in `_solve_vrp`: the arc distance
callback (lines 132-137) and the unary demand callback (lines 168-172). -/
inductive TransitKind
  | distance
  | demand
deriving DecidableEq

structure DimSpec where
  transit : TransitKind
  cap : ℤ
  name : String
deriving DecidableEq

/-- OR-Tools `RoutingModel.AddDimension` / `AddDimensionWithVehicleCapacity`:
per its documentation the call returns false and creates nothing when a
dimension with the same name already exists; the Python source never checks
that return value. -/
def addDimension (dims : List DimSpec) (d : DimSpec) : List DimSpec :=
  if dims.any fun e => e.name == d.name then dims else dims ++ [d]

/-- The four dimension registrations of `_solve_vrp`, in source order:
`'Capacity'` (distance callback, bound `vehicle_capacity`, lines 141-147),
`'Time'` (distance callback, bound `max_route_time`, lines 150-156),
`'Demand'` (distance callback, bound `vehicle_capacity`, lines 159-165), and
`'Demand'` again (demand callback, bound `vehicle_capacity`, lines 173-179). -/
def registered_dimensions (s : ServiceState) : List DimSpec :=
  addDimension
    (addDimension
      (addDimension
        (addDimension [] ⟨TransitKind.distance, s.vehicle_capacity, "Capacity"⟩)
        ⟨TransitKind.distance, s.max_route_time, "Time"⟩)
      ⟨TransitKind.distance, s.vehicle_capacity, "Demand"⟩)
    ⟨TransitKind.demand, s.vehicle_capacity, "Demand"⟩

/-- `demands = [0] + [point.get('demand_qty', 0) for point in delivery_points]`
(optimize_routes line 42). -/
def demands_of (dps : List DeliveryPoint) : List ℤ :=
  0 :: dps.map fun p => p.demand_qty

/-- Value of a transit callback on the arc from node `i` to node `j`. -/
def dim_transit (m : List (List ℤ)) (demands : List ℤ) :
    TransitKind → ℕ → ℕ → ℤ
  | TransitKind.distance, i, j => matEntry m i j
  | TransitKind.demand, i, _ => demands.getD i 0

/-- Cumulative value of a dimension along an extracted route (the solver
accumulates the transit over every traversed arc, with zero slack). -/
def route_dim_total (m : List (List ℤ)) (demands : List ℤ) (k : TransitKind)
    (route : List ℕ) : ℤ :=
  ((route.zip route.tail).map fun p => dim_transit m demands k p.1 p.2).sum

/-- A route satisfies every dimension actually registered on the model. -/
def route_satisfies_dims (m : List (List ℤ)) (demands : List ℤ)
    (route : List ℕ) (dims : List DimSpec) : Bool :=
  dims.all fun d => route_dim_total m demands d.transit route ≤ d.cap

/-- The route-distance accumulation of the extraction loop in `_solve_vrp`
(lines 204-211): starting from 0, add the arc cost of every transition taken,
including the final transition to the End node. -/
def solve_route_distance (m : List (List ℤ)) (route : List ℕ) : ℤ :=
  (route.zip route.tail).foldl (fun acc p => acc + matEntry m p.1 p.2) 0

/-- Sum of edge costs between consecutive visited nodes of a route. -/
def consecutive_edge_sum (m : List (List ℤ)) (route : List ℕ) : ℤ :=
  ((route.zip route.tail).map fun p => matEntry m p.1 p.2).sum

/-! ## Route composition (`_build_route_details`) -/

inductive StopKind
  | warehouse
  | delivery
deriving DecidableEq

structure Stop where
  stop_id : String
  client_id : String
  customer_name : String
  lat : ℚ
  lng : ℚ
  demand_qty : ℤ
  estimated_arrival : ℚ
  order : ℕ
  kind : StopKind
deriving DecidableEq

instance : Inhabited Stop :=
  ⟨⟨"", "", "", 0, 0, 0, 0, 0, StopKind.warehouse⟩⟩

/-- One stop dict of `_build_route_details` (lines 257-283): node 0 is the
warehouse, any other node is `delivery_points[node_idx - 1]`. -/
def stopOf (route_idx : ℕ) (wh : Warehouse) (dps : List DeliveryPoint)
    (node i : ℕ) (t : ℚ) : Stop :=
  if node = 0 then
    { stop_id := "WH-" ++ toString route_idx,
      client_id := wh.warehouse_id,
      customer_name := wh.name,
      lat := wh.lat, lng := wh.lng,
      demand_qty := 0,
      estimated_arrival := t,
      order := i,
      kind := StopKind.warehouse }
  else
    let p := dps.getD (node - 1) default
    { stop_id := "STOP-" ++ toString route_idx ++ "-" ++ toString i,
      client_id := p.client_id,
      customer_name := p.customer_name,
      lat := p.lat, lng := p.lng,
      demand_qty := p.demand_qty,
      estimated_arrival := t,
      order := i,
      kind := StopKind.delivery }

/-- The stop-building loop of `_build_route_details` (lines 257-298): emit the
stop for the current node at the current time; while a next node exists,
advance the clock by `(distance / average_speed) * 60` plus
`service_time_per_stop` before emitting the next stop. -/
def build_stops (route_idx : ℕ) (wh : Warehouse) (dps : List DeliveryPoint)
    (m : List (List ℤ)) (speed service : ℚ) :
    List ℕ → ℕ → ℚ → List Stop
  | [], _, _ => []
  | [node], i, t => [stopOf route_idx wh dps node i t]
  | node :: next :: rest, i, t =>
    stopOf route_idx wh dps node i t ::
      build_stops route_idx wh dps m speed service (next :: rest) (i + 1)
        (t + ((matEntry m node next : ℚ) / speed) * 60 + service)

/-- The distance accumulation of the same loop (lines 288-291): add
`distance_matrix[node_idx][next_node_idx]` while a next node exists. -/
def route_total_distance (m : List (List ℤ)) : List ℕ → ℤ
  | [] => 0
  | [_] => 0
  | node :: next :: rest => matEntry m node next + route_total_distance m (next :: rest)

structure RouteRecord where
  route_id : String
  warehouse_id : String
  stops : List Stop
  total_distance : ℚ
  estimated_time : ℚ
  estimated_cost : ℚ
  efficiency_score : ℝ
  num_stops : ℕ
  total_demand : ℤ
  utilization : ℚ

/-- `_calculate_route_efficiency(stops, total_distance)` (lines 320-359).
The `except` fallback (score 50) is unreachable in the embedding: every
arithmetic operation here is total. -/
noncomputable def calculate_route_efficiency (stops : List Stop)
    (total_distance : ℚ) : ℝ :=
  if stops.length ≤ 1 then 0
  else
    let distance_per_stop : ℝ := (total_distance : ℝ) / ((stops.length - 1 : ℕ) : ℝ)
    let base : ℝ :=
      if distance_per_stop ≤ 10 then 100
      else max 0 (100 - ((distance_per_stop - 10) / 10) * 50)
    let eff : ℝ :=
      if 2 < stops.length then
        let distances : List ℝ :=
          (List.range' 1 (stops.length - 2)).map fun i =>
            calculate_distance ((stops.getD i default).lat : ℝ)
              ((stops.getD i default).lng : ℝ)
              ((stops.getD (i + 1) default).lat : ℝ)
              ((stops.getD (i + 1) default).lng : ℝ)
        let avg := distances.sum / (distances.length : ℝ)
        let std := Real.sqrt (((distances.map fun d => (d - avg) ^ 2).sum) / (distances.length : ℝ))
        if std < avg * (3 / 10) then base + 10
        else if std < avg * (5 / 10) then base + 5
        else base
      else base
    min 100 (max 0 eff)

/-- One route dict of `_build_route_details` (lines 300-316). -/
noncomputable def build_one_route (route_idx : ℕ) (route : List ℕ)
    (wh : Warehouse) (dps : List DeliveryPoint) (m : List (List ℤ))
    (s : ServiceState) : RouteRecord :=
  let stops := build_stops route_idx wh dps m (s.average_speed : ℚ)
    (s.service_time_per_stop : ℚ) route 0 0
  let td : ℤ := route_total_distance m route
  let total_demand : ℤ := (stops.map fun st => st.demand_qty).sum
  { route_id := "ROUTE-" ++ toString (route_idx + 1),
    warehouse_id := wh.warehouse_id,
    stops := stops,
    total_distance := pyRound 2 ((td : ℤ) : ℚ),
    estimated_time := pyRound 1 (((td : ℤ) : ℚ) / (s.average_speed : ℚ) * 60),
    estimated_cost := pyRound 2 (((td : ℤ) : ℚ) * (5 / 2)),
    efficiency_score := pyRound 1 (calculate_route_efficiency stops ((td : ℤ) : ℚ)),
    num_stops := stops.length - 1,
    total_demand := total_demand,
    utilization := min 100 ((total_demand : ℚ) / (s.vehicle_capacity : ℚ) * 100) }

/-- The enumeration loop of `_build_route_details` (lines 248-316): routes with
at most one entry are skipped, but still advance the enumeration index. -/
noncomputable def build_route_details_aux (wh : Warehouse)
    (dps : List DeliveryPoint) (m : List (List ℤ)) (s : ServiceState) :
    ℕ → List (List ℕ) → List RouteRecord
  | _, [] => []
  | idx, route :: rest =>
    if 1 < route.length then
      build_one_route idx route wh dps m s ::
        build_route_details_aux wh dps m s (idx + 1) rest
    else
      build_route_details_aux wh dps m s (idx + 1) rest

/-- `_build_route_details(route_indices, warehouse_data, delivery_points,
distance_matrix)`. -/
noncomputable def build_route_details (wh : Warehouse) (dps : List DeliveryPoint)
    (m : List (List ℤ)) (s : ServiceState) (route_indices : List (List ℕ)) :
    List RouteRecord :=
  build_route_details_aux wh dps m s 0 route_indices

/-- Delivery-point ids named by a route's node sequence: node `n > 0` refers to
`delivery_points[n - 1]`. -/
def routeDeliveryIds (dps : List DeliveryPoint) (route : List ℕ) : List String :=
  (route.filter fun n => n != 0).map fun n => (dps.getD (n - 1) default).client_id

/-- The client ids of all delivery-kind stops across a list of composed
routes, in order. -/
def delivery_client_ids (routes : List RouteRecord) : List String :=
  routes.flatMap fun r =>
    (r.stops.filter fun st => st.kind == StopKind.delivery).map fun st => st.client_id

/-- `_calculate_efficiency_score(routes)` (lines 365-387): stop-count-weighted
mean of the per-route efficiency scores (`total_score / total_weight` with
`weight = num_stops`), rounded to one decimal; 0 for an empty route list and
when the total weight is 0. -/
noncomputable def calculate_efficiency_score (routes : List RouteRecord) : ℝ :=
  if routes.isEmpty then 0
  else if 0 < (routes.map fun r => r.num_stops).sum then
    pyRound 1 ((routes.map fun r => r.efficiency_score * ((r.num_stops : ℕ) : ℝ)).sum /
      (((routes.map fun r => r.num_stops).sum : ℕ) : ℝ))
  else 0

/-- A route record with efficiency score 0 carrying weight `num_stops = 1`. -/
noncomputable def c10RouteA : RouteRecord :=
  { route_id := "ROUTE-1", warehouse_id := "WH", stops := [], total_distance := 0,
    estimated_time := 0, estimated_cost := 0, efficiency_score := 0,
    num_stops := 1, total_demand := 0, utilization := 0 }

/-- A route record with efficiency score 50 carrying weight `num_stops = 2`. -/
noncomputable def c10RouteB : RouteRecord :=
  { route_id := "ROUTE-2", warehouse_id := "WH", stops := [], total_distance := 0,
    estimated_time := 0, estimated_cost := 0, efficiency_score := 50,
    num_stops := 2, total_demand := 0, utilization := 0 }

/-! ## The optimizer entry point (`optimize_routes`) -/

/-- What the external OR-Tools search returns to `_solve_vrp`: either a
solution, from which the source extracts one node sequence per vehicle, or no
solution (`SolveWithParameters` returned nothing). -/
inductive SolverOutcome
  | sol (routes : List (List ℕ))
  | nosol

structure OptimizationResult where
  status : String
  error : Option String
  routes : List RouteRecord
  total_routes : ℕ
  efficiency_score : ℝ

/-- `optimize_routes(warehouse_data, delivery_points, vehicle_constraints)`.
The returned pair is (result dict, service state after the call): the Python
method mutates `self` in place, so the second component is the state every
later call on the same service object starts from. -/
noncomputable def optimize_routes (wh : Warehouse) (dps : List DeliveryPoint)
    (vc : Option VehicleConstraints) (s : ServiceState) (o : SolverOutcome) :
    OptimizationResult × ServiceState :=
  if dps.isEmpty then
    ({ status := "error", error := some "No delivery points provided",
       routes := [], total_routes := 0, efficiency_score := 0 }, s)
  else
    let s1 := applyConstraints s vc
    let locations := warehouseLocation wh :: dps.map toLocation
    let m := create_distance_matrix locations
    match o with
    | SolverOutcome.sol rs =>
      let routes := build_route_details wh dps m s1 rs
      ({ status := "success", error := none, routes := routes,
         total_routes := routes.length,
         efficiency_score := calculate_efficiency_score routes }, s1)
    | SolverOutcome.nosol =>
      ({ status := "error", error := some "No solution found",
         routes := [], total_routes := 0, efficiency_score := 0 }, s1)

/-- Modelled from the spec (§4.2): the per-arc accumulation the spec ascribes
to the time dimension, namely the edge cost converted to minutes via
`average_speed` plus `service_time_per_stop` at each visited node. -/
def spec_time_transit (m : List (List ℤ)) (speed service : ℚ) (i j : ℕ) : ℚ :=
  ((matEntry m i j : ℤ) : ℚ) / speed * 60 + service

/-! ## Helper lemmas: rounding and truncation -/

theorem roundHalfEven_intCast {α : Type} [LinearOrderedField α] [FloorRing α]
    (z : ℤ) : roundHalfEven (z : α) = z := by
  simp [roundHalfEven, Int.floor_intCast]

theorem roundHalfEven_nonneg {α : Type} [LinearOrderedField α] [FloorRing α]
    {x : α} (hx : 0 ≤ x) : 0 ≤ roundHalfEven x := by
  have hf : (0 : ℤ) ≤ ⌊x⌋ := Int.floor_nonneg.mpr hx
  unfold roundHalfEven
  split
  · exact hf
  · split
    · omega
    · split
      · exact hf
      · omega

theorem roundHalfEven_le {α : Type} [LinearOrderedField α] [FloorRing α]
    {x : α} {c : ℤ} (hx : x ≤ (c : α)) : roundHalfEven x ≤ c := by
  have hf : ⌊x⌋ ≤ c := by
    have := Int.floor_le_floor (α := α) hx
    simpa [Int.floor_intCast] using this
  unfold roundHalfEven
  split
  · exact hf
  · rename_i h1
    push_neg at h1
    have hlt : ⌊x⌋ < c := by
      by_contra hcon
      push_neg at hcon
      have hcc : c = ⌊x⌋ := le_antisymm hcon hf
      subst hcc
      have : x - ⌊x⌋ < 1 / 2 := by
        have hle : x - (⌊x⌋ : α) ≤ 0 := by
          have : x ≤ ((⌊x⌋ : ℤ) : α) := hx
          linarith
        linarith
      linarith
    split
    · omega
    · split
      · exact hf
      · omega

theorem pyRound_nonneg {α : Type} [LinearOrderedField α] [FloorRing α]
    {n : ℕ} {x : α} (hx : 0 ≤ x) : 0 ≤ pyRound n x := by
  unfold pyRound
  have h1 : (0 : ℤ) ≤ roundHalfEven (x * 10 ^ n) :=
    roundHalfEven_nonneg (by positivity)
  have h2 : (0 : α) ≤ (roundHalfEven (x * 10 ^ n) : α) := by exact_mod_cast h1
  positivity

theorem pyRound_le_of_le {α : Type} [LinearOrderedField α] [FloorRing α]
    {n : ℕ} {x : α} {c : ℤ} (hx : x ≤ (c : α)) : pyRound n x ≤ (c : α) := by
  unfold pyRound
  have hpow : (0 : α) < 10 ^ n := by positivity
  have h1 : roundHalfEven (x * 10 ^ n) ≤ c * 10 ^ n := by
    apply roundHalfEven_le
    push_cast
    calc x * 10 ^ n ≤ (c : α) * 10 ^ n := by
          exact mul_le_mul_of_nonneg_right hx (le_of_lt hpow)
      _ = (c : α) * 10 ^ n := rfl
  have h2 : (roundHalfEven (x * 10 ^ n) : α) ≤ ((c * 10 ^ n : ℤ) : α) := by
    exact_mod_cast h1
  rw [div_le_iff₀ hpow]
  calc (roundHalfEven (x * 10 ^ n) : α) ≤ ((c * 10 ^ n : ℤ) : α) := h2
    _ = (c : α) * 10 ^ n := by push_cast; ring

theorem pyRound_intCast {α : Type} [LinearOrderedField α] [FloorRing α]
    (n : ℕ) (z : ℤ) : pyRound n ((z : ℤ) : α) = (z : α) := by
  unfold pyRound
  have hpow : (0 : α) < 10 ^ n := by positivity
  have : ((z : α) * 10 ^ n) = (((z * 10 ^ n : ℤ) : ℤ) : α) := by push_cast; ring
  rw [this, roundHalfEven_intCast]
  push_cast
  field_simp

/-! ## Helper lemmas: the haversine distance -/

theorem hav_a_symm (p q r s : ℝ) : hav_a p q r s = hav_a r s p q := by
  unfold hav_a
  have h1 : (p - r) / 2 = -((r - p) / 2) := by ring
  have h2 : (q - s) / 2 = -((s - q) / 2) := by ring
  rw [h1, h2, Real.sin_neg, Real.sin_neg]
  ring

theorem calculate_distance_symm (lat1 lng1 lat2 lng2 : ℝ) :
    calculate_distance lat1 lng1 lat2 lng2 = calculate_distance lat2 lng2 lat1 lng1 := by
  unfold calculate_distance
  rw [hav_a_symm]

theorem atan2_sqrt_nonneg (a b : ℝ) : 0 ≤ atan2 (Real.sqrt a) b := by
  unfold atan2
  exact Complex.arg_nonneg_iff.mpr (by simp [Real.sqrt_nonneg])

theorem calculate_distance_nonneg (lat1 lng1 lat2 lng2 : ℝ) :
    0 ≤ calculate_distance lat1 lng1 lat2 lng2 := by
  unfold calculate_distance
  have h := atan2_sqrt_nonneg (hav_a (radians lat1) (radians lng1) (radians lat2) (radians lng2))
    (Real.sqrt (1 - hav_a (radians lat1) (radians lng1) (radians lat2) (radians lng2)))
  positivity

theorem pyInt_nonneg {x : ℝ} (hx : 0 ≤ x) : 0 ≤ pyInt x := by
  unfold pyInt
  rw [if_pos hx]
  exact Int.floor_nonneg.mpr hx

/-! ## Lemmas about the distance matrix -/

theorem create_distance_matrix_length (locs : List Location) :
    (create_distance_matrix locs).length = locs.length := by
  simp [create_distance_matrix]

theorem create_row_of_lt (locs : List Location) {i : ℕ} (hi : i < locs.length) :
    (create_distance_matrix locs).getD i [] =
      (List.range locs.length).map fun j =>
        if i = j then 0
        else
          pyInt (calculate_distance ((locs.getD i default).lat : ℝ)
            ((locs.getD i default).lng : ℝ) ((locs.getD j default).lat : ℝ)
            ((locs.getD j default).lng : ℝ)) := by
  simp [create_distance_matrix, List.getD_eq_getElem?_getD,
    List.getElem?_map, List.getElem?_range, hi]

theorem matEntry_create_of_lt (locs : List Location) {i j : ℕ}
    (hi : i < locs.length) (hj : j < locs.length) :
    matEntry (create_distance_matrix locs) i j =
      if i = j then 0
      else
        pyInt (calculate_distance ((locs.getD i default).lat : ℝ)
          ((locs.getD i default).lng : ℝ) ((locs.getD j default).lat : ℝ)
          ((locs.getD j default).lng : ℝ)) := by
  unfold matEntry
  rw [create_row_of_lt locs hi]
  simp [List.getD_eq_getElem?_getD, List.getElem?_map, List.getElem?_range, hj]

theorem matEntry_create_row_oob (locs : List Location) {i : ℕ}
    (hi : locs.length ≤ i) (j : ℕ) :
    matEntry (create_distance_matrix locs) i j = 0 := by
  unfold matEntry
  have hrow : (create_distance_matrix locs).getD i [] = [] :=
    List.getD_eq_default _ _ (by simpa [create_distance_matrix] using hi)
  rw [hrow]
  simp

theorem matEntry_create_col_oob (locs : List Location) (i : ℕ) {j : ℕ}
    (hj : locs.length ≤ j) :
    matEntry (create_distance_matrix locs) i j = 0 := by
  by_cases hi : i < locs.length
  · unfold matEntry
    rw [create_row_of_lt locs hi]
    exact List.getD_eq_default _ _ (by simpa using hj)
  · exact matEntry_create_row_oob locs (le_of_not_lt hi) j

/-- C8: the distance matrix `_create_distance_matrix` builds over
`[depot] + delivery_points` is square (n rows of length n), symmetric,
non-negative, and integer-valued (its entries have type ℤ by construction),
with `matrix[i][i] = 0`.  `matEntry` reads out-of-range positions as the
default 0 on both sides, so symmetry and non-negativity are stated for all
index pairs. -/
theorem C8_distance_matrix_square_symmetric_nonneg_zero_diag (locs : List Location) :
    ((create_distance_matrix locs).length = locs.length ∧
      ∀ i : ℕ, ((create_distance_matrix locs).getD i []).length =
        if i < locs.length then locs.length else 0) ∧
    (∀ i j : ℕ, matEntry (create_distance_matrix locs) i j =
      matEntry (create_distance_matrix locs) j i) ∧
    (∀ i j : ℕ, 0 ≤ matEntry (create_distance_matrix locs) i j) ∧
    (∀ i : ℕ, matEntry (create_distance_matrix locs) i i = 0) := by
  refine ⟨⟨create_distance_matrix_length locs, ?_⟩, ?_, ?_, ?_⟩
  · intro i
    by_cases hi : i < locs.length
    · rw [if_pos hi, create_row_of_lt locs hi]
      simp
    · rw [if_neg hi]
      have hrow : (create_distance_matrix locs).getD i [] = [] :=
        List.getD_eq_default _ _
          (by simpa [create_distance_matrix] using le_of_not_lt hi)
      rw [hrow]
      rfl
  · intro i j
    by_cases hi : i < locs.length
    · by_cases hj : j < locs.length
      · rw [matEntry_create_of_lt locs hi hj, matEntry_create_of_lt locs hj hi]
        by_cases hij : i = j
        · simp [hij]
        · rw [if_neg hij, if_neg fun h => hij h.symm, calculate_distance_symm]
      · rw [matEntry_create_col_oob locs i (le_of_not_lt hj),
          matEntry_create_row_oob locs (le_of_not_lt hj) i]
    · rw [matEntry_create_row_oob locs (le_of_not_lt hi) j,
        matEntry_create_col_oob locs j (le_of_not_lt hi)]
  · intro i j
    by_cases hi : i < locs.length
    · by_cases hj : j < locs.length
      · rw [matEntry_create_of_lt locs hi hj]
        by_cases hij : i = j
        · simp [hij]
        · rw [if_neg hij]
          exact pyInt_nonneg (calculate_distance_nonneg _ _ _ _)
      · rw [matEntry_create_col_oob locs i (le_of_not_lt hj)]
    · rw [matEntry_create_row_oob locs (le_of_not_lt hi) j]
  · intro i
    by_cases hi : i < locs.length
    · rw [matEntry_create_of_lt locs hi hi]
      simp
    · rw [matEntry_create_row_oob locs (le_of_not_lt hi) i]

/-! ## Lemmas about route accounting and composition -/

theorem route_total_distance_eq_consecutive (m : List (List ℤ)) (route : List ℕ) :
    route_total_distance m route = consecutive_edge_sum m route := by
  induction route with
  | nil => rfl
  | cons n rest ih =>
    cases rest with
    | nil => rfl
    | cons n2 rest2 =>
      simp only [route_total_distance, consecutive_edge_sum, List.tail_cons,
        List.zip_cons_cons, List.map_cons, List.sum_cons] at *
      rw [ih]

theorem foldl_add_eq_sum {α : Type} (f : α → ℤ) (l : List α) (a : ℤ) :
    l.foldl (fun acc p => acc + f p) a = a + (l.map f).sum := by
  induction l generalizing a with
  | nil => simp
  | cons x xs ih => simp [ih, add_assoc]

theorem solve_route_distance_eq_consecutive (m : List (List ℤ)) (route : List ℕ) :
    solve_route_distance m route = consecutive_edge_sum m route := by
  unfold solve_route_distance consecutive_edge_sum
  rw [foldl_add_eq_sum]
  ring

theorem stopOf_arrival (route_idx : ℕ) (wh : Warehouse) (dps : List DeliveryPoint)
    (node i : ℕ) (t : ℚ) : (stopOf route_idx wh dps node i t).estimated_arrival = t := by
  unfold stopOf
  split <;> rfl

theorem build_stops_head_arrival (ri : ℕ) (wh : Warehouse) (dps : List DeliveryPoint)
    (m : List (List ℤ)) (sp sv : ℚ) (n : ℕ) (l : List ℕ) (i : ℕ) (t : ℚ) :
    ((build_stops ri wh dps m sp sv (n :: l) i t).getD 0 default).estimated_arrival = t := by
  cases l <;> simp [build_stops, stopOf_arrival]

theorem build_stops_arrival_step (ri : ℕ) (wh : Warehouse) (dps : List DeliveryPoint)
    (m : List (List ℤ)) (sp sv : ℚ) :
    ∀ (route : List ℕ) (i : ℕ) (t : ℚ) (j : ℕ), j + 1 < route.length →
      ((build_stops ri wh dps m sp sv route i t).getD (j + 1) default).estimated_arrival =
        ((build_stops ri wh dps m sp sv route i t).getD j default).estimated_arrival +
          ((matEntry m (route.getD j 0) (route.getD (j + 1) 0) : ℤ) : ℚ) / sp * 60 + sv := by
  intro route
  induction route with
  | nil => intro i t j h; simp at h
  | cons n rest ih =>
    cases rest with
    | nil =>
      intro i t j h
      simp at h
    | cons n2 rest2 =>
      intro i t j h
      cases j with
      | zero =>
        show ((build_stops ri wh dps m sp sv (n2 :: rest2) (i + 1) _).getD 0
          default).estimated_arrival = _
        rw [build_stops_head_arrival]
        simp [build_stops, stopOf_arrival, List.getD_cons_zero, List.getD_cons_succ]
      | succ j' =>
        have h' : j' + 1 < (n2 :: rest2).length := by
          simpa using Nat.lt_of_succ_lt_succ h
        show ((build_stops ri wh dps m sp sv (n2 :: rest2) (i + 1) _).getD (j' + 1)
          default).estimated_arrival = _
        rw [ih (i + 1) _ j' h']
        rfl

theorem build_stops_delivery_ids (ri : ℕ) (wh : Warehouse) (dps : List DeliveryPoint)
    (m : List (List ℤ)) (sp sv : ℚ) :
    ∀ (route : List ℕ) (i : ℕ) (t : ℚ),
      ((build_stops ri wh dps m sp sv route i t).filter
        fun st => st.kind == StopKind.delivery).map (fun st => st.client_id) =
      routeDeliveryIds dps route := by
  intro route
  induction route with
  | nil => intro i t; rfl
  | cons n rest ih =>
    cases rest with
    | nil =>
      intro i t
      by_cases hn : n = 0 <;>
        simp [build_stops, stopOf, routeDeliveryIds, hn, List.filter_cons]
    | cons n2 rest2 =>
      intro i t
      by_cases hn : n = 0 <;>
        simp [build_stops, stopOf, routeDeliveryIds, hn, List.filter_cons, ih,
          routeDeliveryIds.eq_def]

theorem build_route_details_aux_ids (wh : Warehouse) (dps : List DeliveryPoint)
    (m : List (List ℤ)) (s : ServiceState) :
    ∀ (rs : List (List ℕ)) (idx : ℕ), (∀ r ∈ rs, 2 ≤ r.length) →
      delivery_client_ids (build_route_details_aux wh dps m s idx rs) =
        rs.flatMap (routeDeliveryIds dps) := by
  intro rs
  induction rs with
  | nil => intro idx h; rfl
  | cons r rest ih =>
    intro idx h
    have h1 : 1 < r.length := h r (by simp)
    rw [build_route_details_aux, if_pos h1, List.flatMap_cons]
    show ((build_one_route idx r wh dps m s).stops.filter
        fun st => st.kind == StopKind.delivery).map (fun st => st.client_id) ++
      delivery_client_ids (build_route_details_aux wh dps m s (idx + 1) rest) = _
    rw [ih (idx + 1) fun r' hr' => h r' (List.mem_cons_of_mem r hr')]
    show ((build_stops idx wh dps m (s.average_speed : ℚ)
        (s.service_time_per_stop : ℚ) r 0 0).filter
      fun st => st.kind == StopKind.delivery).map (fun st => st.client_id) ++ _ = _
    rw [build_stops_delivery_ids]

theorem flatMap_routeDeliveryIds (dps : List DeliveryPoint) (rs : List (List ℕ)) :
    rs.flatMap (routeDeliveryIds dps) =
      (rs.flatten.filter fun n => n != 0).map
        fun n => (dps.getD (n - 1) default).client_id := by
  induction rs with
  | nil => rfl
  | cons r rest ih =>
    simp only [List.flatMap_cons, List.flatten_cons, List.filter_append,
      List.map_append, ih, routeDeliveryIds]

theorem range'_map_getD (dps : List DeliveryPoint) :
    (List.range' 1 dps.length).map (fun n => (dps.getD (n - 1) default).client_id) =
      dps.map fun p => p.client_id := by
  rw [List.range'_eq_map_range, List.map_map]
  apply List.ext_getElem
  · simp
  · intro k h1 h2
    have hk : k < dps.length := by simpa using h2
    simp only [List.getElem_map, List.getElem_range, Function.comp_apply]
    have hsub : 1 + k - 1 = k := by omega
    rw [hsub, List.getD_eq_getElem dps default hk]

/-! ## Claim C1 -/

/-- C1: for a success result, the delivery-point ids across all composed
routes are exactly the input delivery-point ids, each appearing exactly once
(equality of multisets: no duplicates, none dropped).  The hypotheses state
the shape of what the extraction loop of `_solve_vrp` hands to
`_build_route_details` whenever the external OR-Tools solver returns a
solution: each per-vehicle sequence contains at least its start and end depot
nodes, and the delivery nodes 1..n are visited exactly once across the
sequences (the model registers no disjunctions, so any returned solution
visits every node exactly once). -/
theorem C1_success_covers_each_delivery_exactly_once
    (wh : Warehouse) (dps : List DeliveryPoint) (m : List (List ℤ))
    (s : ServiceState) (rs : List (List ℕ))
    (hlen : ∀ r ∈ rs, 2 ≤ r.length)
    (hperm : (rs.flatten.filter fun n => n != 0).Perm (List.range' 1 dps.length)) :
    (delivery_client_ids (build_route_details wh dps m s rs) : Multiset String) =
      ((dps.map fun p => p.client_id : List String) : Multiset String) := by
  rw [Multiset.coe_eq_coe, build_route_details,
    build_route_details_aux_ids wh dps m s rs 0 hlen, flatMap_routeDeliveryIds]
  have hp := hperm.map fun n => (dps.getD (n - 1) default).client_id
  rwa [range'_map_getD] at hp

/-- Witness for C1: two delivery points A and B, one extracted route
0 → 2 → 1 → 0; the composed routes carry the ids B, A — the input id set. -/
theorem C1_witness :
    ((∀ r ∈ [[0, 2, 1, 0]], 2 ≤ r.length) ∧
      ([[0, 2, 1, 0]].flatten.filter fun n => n != 0).Perm
        (List.range' 1 ([(⟨1, 1, 5, "A", "Alice"⟩ : DeliveryPoint),
          ⟨2, 2, 7, "B", "Bob"⟩].length))) ∧
    (delivery_client_ids (build_route_details ⟨0, 0, "WH", "Main"⟩
        [⟨1, 1, 5, "A", "Alice"⟩, ⟨2, 2, 7, "B", "Bob"⟩]
        [[0, 1, 2], [1, 0, 3], [2, 3, 0]] initState [[0, 2, 1, 0]]) : Multiset String) =
      (([(⟨1, 1, 5, "A", "Alice"⟩ : DeliveryPoint),
          ⟨2, 2, 7, "B", "Bob"⟩].map fun p => p.client_id : List String) : Multiset String) :=
  ⟨⟨by decide, by decide⟩,
    C1_success_covers_each_delivery_exactly_once ⟨0, 0, "WH", "Main"⟩
      [⟨1, 1, 5, "A", "Alice"⟩, ⟨2, 2, 7, "B", "Bob"⟩]
      [[0, 1, 2], [1, 0, 3], [2, 3, 0]] initState [[0, 2, 1, 0]]
      (by decide) (by decide)⟩

/-! ## Claim C6 -/

/-- C6: route cost accounting sums exactly the edge costs between consecutive
visited nodes of the extracted sequence and adds nothing on top: the
composer-side `total_distance` (and the `estimated_cost` derived from it) and
the solver-side accumulation of `_solve_vrp` all equal the consecutive-edge
sum of the route; no extra closing edge back to the depot is added beyond the
edges already present between consecutive entries of the sequence. -/
theorem C6_one_way_consecutive_edge_accounting (route_idx : ℕ) (route : List ℕ)
    (wh : Warehouse) (dps : List DeliveryPoint) (m : List (List ℤ)) (s : ServiceState) :
    (build_one_route route_idx route wh dps m s).total_distance =
        ((consecutive_edge_sum m route : ℤ) : ℚ) ∧
      (build_one_route route_idx route wh dps m s).estimated_cost =
        pyRound 2 (((consecutive_edge_sum m route : ℤ) : ℚ) * (5 / 2)) ∧
      solve_route_distance m route = consecutive_edge_sum m route := by
  refine ⟨?_, ?_, solve_route_distance_eq_consecutive m route⟩
  · show pyRound 2 ((route_total_distance m route : ℤ) : ℚ) = _
    rw [route_total_distance_eq_consecutive, pyRound_intCast]
  · show pyRound 2 (((route_total_distance m route : ℤ) : ℚ) * (5 / 2)) = _
    rw [route_total_distance_eq_consecutive]

/-! ## Claim C5 -/

/-- C5 as amended: in every composed route the arrival time of stop i equals
the arrival of stop i-1, plus the travel time of the connecting edge
(distance divided by `average_speed`, times 60), plus `service_time_per_stop`
— the service time being charged on every leg, including the leg leaving the
depot-origin stop; the source grants no depot exemption. -/
theorem C5_arrival_recurrence_service_on_every_leg (route_idx : ℕ) (route : List ℕ)
    (wh : Warehouse) (dps : List DeliveryPoint) (m : List (List ℤ)) (s : ServiceState)
    (j : ℕ) (hj : j + 1 < route.length) :
    ((build_one_route route_idx route wh dps m s).stops.getD (j + 1)
        default).estimated_arrival =
      ((build_one_route route_idx route wh dps m s).stops.getD j
        default).estimated_arrival +
        ((matEntry m (route.getD j 0) (route.getD (j + 1) 0) : ℤ) : ℚ) /
          ((s.average_speed : ℤ) : ℚ) * 60 + ((s.service_time_per_stop : ℤ) : ℚ) :=
  build_stops_arrival_step route_idx wh dps m ((s.average_speed : ℤ) : ℚ)
    ((s.service_time_per_stop : ℤ) : ℚ) route 0 0 j hj

/-- Witness for C5 at the route 0 → 1 → 0 with a 100-mile edge under default
constraints. -/
theorem C5_witness :
    (0 + 1 < ([0, 1, 0] : List ℕ).length) ∧
    ((build_one_route 0 [0, 1, 0] ⟨0, 0, "WH", "Main"⟩ [⟨0, 0, 400, "CW", "Carol"⟩]
        [[0, 100], [100, 0]] initState).stops.getD (0 + 1)
          default).estimated_arrival =
      ((build_one_route 0 [0, 1, 0] ⟨0, 0, "WH", "Main"⟩ [⟨0, 0, 400, "CW", "Carol"⟩]
        [[0, 100], [100, 0]] initState).stops.getD 0
          default).estimated_arrival +
        ((matEntry [[0, 100], [100, 0]] (([0, 1, 0] : List ℕ).getD 0 0)
            (([0, 1, 0] : List ℕ).getD (0 + 1) 0) : ℤ) : ℚ) /
          ((initState.average_speed : ℤ) : ℚ) * 60 +
        ((initState.service_time_per_stop : ℤ) : ℚ) :=
  ⟨by decide,
    C5_arrival_recurrence_service_on_every_leg 0 [0, 1, 0] ⟨0, 0, "WH", "Main"⟩
      [⟨0, 0, 400, "CW", "Carol"⟩] [[0, 100], [100, 0]] initState 0 (by decide)⟩

/-- C5 counterexample to the claim as stated: with one delivery point 100
miles out (speed 50 mph, service time 15 min), the composed arrivals are
0, 135, 270 minutes — the arrival at stop 1 is 0 + 120 + 15 = 135, not the
0 + 120 that "no service time charged at the depot-origin stop" predicts. -/
theorem C5_counterexample :
    ((build_one_route 0 [0, 1, 0] ⟨0, 0, "WH", "Main"⟩ [⟨0, 0, 400, "CC", "Cid"⟩]
        [[0, 100], [100, 0]] initState).stops.map fun st => st.estimated_arrival) =
      [0, 135, 270] ∧
    ((build_one_route 0 [0, 1, 0] ⟨0, 0, "WH", "Main"⟩ [⟨0, 0, 400, "CC", "Cid"⟩]
        [[0, 100], [100, 0]] initState).stops.getD 1 default).estimated_arrival ≠
      ((build_one_route 0 [0, 1, 0] ⟨0, 0, "WH", "Main"⟩ [⟨0, 0, 400, "CC", "Cid"⟩]
        [[0, 100], [100, 0]] initState).stops.getD 0 default).estimated_arrival +
        ((matEntry [[0, 100], [100, 0]] 0 1 : ℤ) : ℚ) /
          ((initState.average_speed : ℤ) : ℚ) * 60 := by
  constructor
  · simp [build_one_route, build_stops, stopOf, matEntry, initState]
    norm_num
  · simp [build_one_route, build_stops, stopOf, matEntry, initState,
      List.getD_cons_zero, List.getD_cons_succ]

/-! ## Claim C7 -/

/-- C7 as amended: a call with an empty delivery_points list returns
immediately with status "error" and the diagnostic "No delivery points
provided", without consulting the solver (the result is the same for every
solver outcome) and without touching the service state. -/
theorem C7_empty_delivery_points_immediate_error (wh : Warehouse)
    (vc : Option VehicleConstraints) (s : ServiceState) (o : SolverOutcome) :
    optimize_routes wh [] vc s o =
      ({ status := "error", error := some "No delivery points provided",
         routes := [], total_routes := 0, efficiency_score := 0 }, s) := rfl

/-- C7 counterexample to the claimed diagnostic text: the code's diagnostic is
the string "No delivery points provided", not "no delivery points". -/
theorem C7_counterexample :
    (optimize_routes ⟨0, 0, "WH", "Main"⟩ [] none initState
        SolverOutcome.nosol).1.status = "error" ∧
      (optimize_routes ⟨0, 0, "WH", "Main"⟩ [] none initState
        SolverOutcome.nosol).1.error = some "No delivery points provided" ∧
      some "No delivery points provided" ≠ some "no delivery points" :=
  ⟨rfl, rfl, by decide⟩

/-! ## Claim C3 -/

/-- C3 as amended: when the solver finds no assignment the optimizer reports
status "error" with the diagnostic "No solution found" — it does not identify
the violating delivery point — and no "infeasible" status exists at all:
every result of a call with a non-empty delivery list has status "success"
or "error". -/
theorem C3_no_solution_reports_error_never_infeasible (wh : Warehouse)
    (dps : List DeliveryPoint) (vc : Option VehicleConstraints)
    (s : ServiceState) (o : SolverOutcome) (h : dps ≠ []) :
    ((optimize_routes wh dps vc s SolverOutcome.nosol).1.status = "error" ∧
      (optimize_routes wh dps vc s SolverOutcome.nosol).1.error =
        some "No solution found") ∧
    ((optimize_routes wh dps vc s o).1.status = "success" ∨
      (optimize_routes wh dps vc s o).1.status = "error") := by
  have hne : ¬(dps.isEmpty = true) := by
    simpa [List.isEmpty_iff] using h
  constructor
  · unfold optimize_routes
    rw [if_neg hne]
    exact ⟨rfl, rfl⟩
  · unfold optimize_routes
    rw [if_neg hne]
    cases o with
    | sol rs => exact Or.inl rfl
    | nosol => exact Or.inr rfl

/-- Witness for C3 at a concrete non-empty input. -/
theorem C3_witness :
    (([(⟨0, 0, 10, "CV", "Vic"⟩ : DeliveryPoint)] : List DeliveryPoint) ≠ []) ∧
    (((optimize_routes ⟨0, 0, "WH", "Main"⟩ [⟨0, 0, 10, "CV", "Vic"⟩] none initState
        SolverOutcome.nosol).1.status = "error" ∧
      (optimize_routes ⟨0, 0, "WH", "Main"⟩ [⟨0, 0, 10, "CV", "Vic"⟩] none initState
        SolverOutcome.nosol).1.error = some "No solution found") ∧
    ((optimize_routes ⟨0, 0, "WH", "Main"⟩ [⟨0, 0, 10, "CV", "Vic"⟩] none initState
        (SolverOutcome.sol [[0, 1, 0]])).1.status = "success" ∨
      (optimize_routes ⟨0, 0, "WH", "Main"⟩ [⟨0, 0, 10, "CV", "Vic"⟩] none initState
        (SolverOutcome.sol [[0, 1, 0]])).1.status = "error")) :=
  ⟨by decide,
    C3_no_solution_reports_error_never_infeasible ⟨0, 0, "WH", "Main"⟩
      [⟨0, 0, 10, "CV", "Vic"⟩] none initState (SolverOutcome.sol [[0, 1, 0]])
      (by decide)⟩

/-- C3 counterexample at the spec's Scenario B input (two delivery points of
demand 2000 each against capacity 1000, an input with no feasible assignment
under the hard capacity constraints): whatever the external solver does, the
result's status is "error" (diagnostic "No solution found", naming no
delivery point) or "success" — never "infeasible". -/
theorem C3_counterexample :
    (optimize_routes ⟨40.7128, -74.006, "WH", "Main"⟩
        [⟨40.8, -74.1, 2000, "P1", "Pia"⟩, ⟨40.9, -74.2, 2000, "P2", "Pam"⟩]
        none initState SolverOutcome.nosol).1.status = "error" ∧
      (optimize_routes ⟨40.7128, -74.006, "WH", "Main"⟩
        [⟨40.8, -74.1, 2000, "P1", "Pia"⟩, ⟨40.9, -74.2, 2000, "P2", "Pam"⟩]
        none initState SolverOutcome.nosol).1.error = some "No solution found" ∧
      (optimize_routes ⟨40.7128, -74.006, "WH", "Main"⟩
        [⟨40.8, -74.1, 2000, "P1", "Pia"⟩, ⟨40.9, -74.2, 2000, "P2", "Pam"⟩]
        none initState (SolverOutcome.sol [[0, 1, 2, 0]])).1.status = "success" ∧
      ("error" ≠ "infeasible" ∧ "success" ≠ "infeasible") :=
  ⟨rfl, rfl, rfl, by decide, by decide⟩

/-! ## Claim C9 -/

/-- C9 as amended: the distance matrix and routes are built fresh per call,
but the constraint fields are instance state: a call that supplies
vehicle_constraints overwrites `self.vehicle_capacity`, `self.max_route_time`
and `self.average_speed`, and the overwritten values are exactly the state
every subsequent call starts from (a later call that supplies no constraints
runs with the previous call's values, not the defaults). -/
theorem C9_constraint_fields_persist_across_calls (wh : Warehouse)
    (dps : List DeliveryPoint) (vc : Option VehicleConstraints)
    (s : ServiceState) (o : SolverOutcome) (h : dps ≠ []) :
    (optimize_routes wh dps vc s o).2 = applyConstraints s vc ∧
      (∀ c : VehicleConstraints,
        (applyConstraints s (some c)).vehicle_capacity =
          c.capacity.getD s.vehicle_capacity) ∧
      applyConstraints s none = s := by
  refine ⟨?_, fun c => rfl, rfl⟩
  have hne : ¬(dps.isEmpty = true) := by
    simpa [List.isEmpty_iff] using h
  unfold optimize_routes
  rw [if_neg hne]
  cases o <;> rfl

/-- Witness for C9 at a concrete call that carries capacity 500. -/
theorem C9_witness :
    (([(⟨0, 0, 400, "CQ", "Quinn"⟩ : DeliveryPoint)] : List DeliveryPoint) ≠ []) ∧
    ((optimize_routes ⟨0, 0, "WH", "Main"⟩ [⟨0, 0, 400, "CQ", "Quinn"⟩]
        (some ⟨some 500, none, none⟩) initState SolverOutcome.nosol).2 =
      applyConstraints initState (some ⟨some 500, none, none⟩) ∧
      (∀ c : VehicleConstraints,
        (applyConstraints initState (some c)).vehicle_capacity =
          c.capacity.getD initState.vehicle_capacity) ∧
      applyConstraints initState none = initState) :=
  ⟨by decide,
    C9_constraint_fields_persist_across_calls ⟨0, 0, "WH", "Main"⟩
      [⟨0, 0, 400, "CQ", "Quinn"⟩] (some ⟨some 500, none, none⟩) initState
      SolverOutcome.nosol (by decide)⟩

/-- C9 counterexample to the claimed isolation of calls: a first call
supplying capacity 500 leaves `vehicle_capacity = 500` in the service state;
a second call on the same service that supplies no constraints then reports
utilization 80 for a demand-400 route, where the same call on a fresh
service reports 40 — the first call changed the second call's result. -/
theorem C9_counterexample :
    ((optimize_routes ⟨0, 0, "WH", "Main"⟩ [⟨0, 0, 400, "CY", "Yara"⟩]
        (some ⟨some 500, none, none⟩) initState SolverOutcome.nosol).2.vehicle_capacity
      = 500) ∧
    initState.vehicle_capacity = 1000 ∧
    ((optimize_routes ⟨0, 0, "WH", "Main"⟩ [⟨0, 0, 400, "CY", "Yara"⟩] none
        ((optimize_routes ⟨0, 0, "WH", "Main"⟩ [⟨0, 0, 400, "CY", "Yara"⟩]
          (some ⟨some 500, none, none⟩) initState SolverOutcome.nosol).2)
        (SolverOutcome.sol [[0, 1, 0]])).1.routes.map fun r => r.utilization) = [80] ∧
    ((optimize_routes ⟨0, 0, "WH", "Main"⟩ [⟨0, 0, 400, "CY", "Yara"⟩] none initState
        (SolverOutcome.sol [[0, 1, 0]])).1.routes.map fun r => r.utilization) = [40] := by
  refine ⟨rfl, rfl, ?_, ?_⟩
  · simp [optimize_routes, build_route_details, build_route_details_aux,
      build_one_route, build_stops, stopOf, applyConstraints, initState]
    norm_num
  · simp [optimize_routes, build_route_details, build_route_details_aux,
      build_one_route, build_stops, stopOf, applyConstraints, initState]
    norm_num

/-! ## Claim C2 -/

/-- C2: the capacity invariant is not enforced by the code.  At a concrete
input — a single delivery point of demand 2000 against capacity 1000 with a
zero distance matrix — every dimension actually registered on the routing
model is satisfied by the route 0 → 1 → 0, because the demand-callback
dimension is never registered: its name 'Demand' collides with the
distance-callback dimension added just before it, OR-Tools rejects the
duplicate name, and the source ignores the returned false.  All registered
dimensions read the distance callback, and the composed route carries total
demand 2000 > capacity 1000. -/
theorem C2_demand_dimension_never_registered :
    ((registered_dimensions initState).map fun d => d.name) =
        ["Capacity", "Time", "Demand"] ∧
      ((registered_dimensions initState).all fun d =>
        d.transit == TransitKind.distance) = true ∧
      route_satisfies_dims [[0, 0], [0, 0]] (demands_of [⟨0, 0, 2000, "CB", "Bea"⟩])
        [0, 1, 0] (registered_dimensions initState) = true ∧
      (build_one_route 0 [0, 1, 0] ⟨0, 0, "WH", "Main"⟩ [⟨0, 0, 2000, "CB", "Bea"⟩]
        [[0, 0], [0, 0]] initState).total_demand = 2000 ∧
      ¬((build_one_route 0 [0, 1, 0] ⟨0, 0, "WH", "Main"⟩ [⟨0, 0, 2000, "CB", "Bea"⟩]
        [[0, 0], [0, 0]] initState).total_demand ≤ initState.vehicle_capacity) :=
  ⟨by decide, by decide, by decide, by decide, by decide⟩

/-! ## Claim C4 -/

/-- C4: the dimension named 'Time' is registered with the raw distance
callback (bound `max_route_time`); along a 100-mile arc it accumulates 100 —
raw distance — and not the 100 / 50 * 60 + 15 = 135 minutes that the claimed
conversion via `average_speed` plus `service_time_per_stop` would accumulate
(`spec_time_transit` renders the claim's accumulation). -/
theorem C4_time_dimension_accumulates_raw_distance :
    ((registered_dimensions initState).filter fun d => d.name == "Time") =
        [⟨TransitKind.distance, 480, "Time"⟩] ∧
      dim_transit [[0, 100], [100, 0]] (demands_of [⟨0, 0, 10, "CT", "Tia"⟩])
        TransitKind.distance 0 1 = 100 ∧
      spec_time_transit [[0, 100], [100, 0]] ((initState.average_speed : ℤ) : ℚ)
        ((initState.service_time_per_stop : ℤ) : ℚ) 0 1 = 135 ∧
      ((dim_transit [[0, 100], [100, 0]] (demands_of [⟨0, 0, 10, "CT", "Tia"⟩])
          TransitKind.distance 0 1 : ℤ) : ℚ) ≠
        spec_time_transit [[0, 100], [100, 0]] ((initState.average_speed : ℤ) : ℚ)
          ((initState.service_time_per_stop : ℤ) : ℚ) 0 1 := by
  refine ⟨by decide, by decide, ?_, ?_⟩
  · simp [spec_time_transit, matEntry, initState]
    norm_num
  · simp [spec_time_transit, dim_transit, matEntry, initState]
    norm_num

/-! ## Claim C10 -/

theorem calculate_route_efficiency_nonneg (stops : List Stop) (td : ℚ) :
    0 ≤ calculate_route_efficiency stops td := by
  unfold calculate_route_efficiency
  by_cases h : stops.length ≤ 1
  · rw [if_pos h]
  · rw [if_neg h]
    exact le_min (by norm_num) (le_max_left _ _)

theorem calculate_route_efficiency_le_100 (stops : List Stop) (td : ℚ) :
    calculate_route_efficiency stops td ≤ 100 := by
  unfold calculate_route_efficiency
  by_cases h : stops.length ≤ 1
  · rw [if_pos h]
    norm_num
  · rw [if_neg h]
    exact min_le_left _ _

theorem weighted_score_sum_nonneg (routes : List RouteRecord)
    (h : ∀ r ∈ routes, 0 ≤ r.efficiency_score) :
    0 ≤ (routes.map fun r => r.efficiency_score * ((r.num_stops : ℕ) : ℝ)).sum := by
  apply List.sum_nonneg
  intro x hx
  obtain ⟨r, hr, rfl⟩ := List.mem_map.mp hx
  exact mul_nonneg (h r hr) (by positivity)

theorem weighted_score_sum_le (routes : List RouteRecord)
    (h : ∀ r ∈ routes, r.efficiency_score ≤ 100) :
    (routes.map fun r => r.efficiency_score * ((r.num_stops : ℕ) : ℝ)).sum ≤
      100 * (routes.map fun r => ((r.num_stops : ℕ) : ℝ)).sum := by
  induction routes with
  | nil => simp
  | cons r rest ih =>
    simp only [List.map_cons, List.sum_cons]
    have h1 : r.efficiency_score * ((r.num_stops : ℕ) : ℝ) ≤
        100 * ((r.num_stops : ℕ) : ℝ) :=
      mul_le_mul_of_nonneg_right (h r (by simp)) (by positivity)
    have h2 := ih fun r' hr' => h r' (List.mem_cons_of_mem r hr')
    linarith [mul_add (100 : ℝ) ((r.num_stops : ℕ) : ℝ)
      ((rest.map fun r' => ((r'.num_stops : ℕ) : ℝ)).sum)]

theorem weight_sum_cast (routes : List RouteRecord) :
    (((routes.map fun r => r.num_stops).sum : ℕ) : ℝ) =
      (routes.map fun r => ((r.num_stops : ℕ) : ℝ)).sum := by
  induction routes with
  | nil => simp
  | cons r rest ih => simp [ih]

theorem calculate_efficiency_score_bounds (routes : List RouteRecord)
    (h : ∀ r ∈ routes, 0 ≤ r.efficiency_score ∧ r.efficiency_score ≤ 100) :
    0 ≤ calculate_efficiency_score routes ∧ calculate_efficiency_score routes ≤ 100 := by
  unfold calculate_efficiency_score
  by_cases he : routes.isEmpty
  · rw [if_pos he]
    norm_num
  · rw [if_neg he]
    by_cases hw : 0 < (routes.map fun r => r.num_stops).sum
    · rw [if_pos hw]
      have hWpos : (0 : ℝ) < (((routes.map fun r => r.num_stops).sum : ℕ) : ℝ) := by
        exact_mod_cast hw
      have hS0 := weighted_score_sum_nonneg routes fun r hr => (h r hr).1
      have hS1 := weighted_score_sum_le routes fun r hr => (h r hr).2
      constructor
      · exact pyRound_nonneg (div_nonneg hS0 hWpos.le)
      · have hq : (routes.map fun r =>
            r.efficiency_score * ((r.num_stops : ℕ) : ℝ)).sum /
            (((routes.map fun r => r.num_stops).sum : ℕ) : ℝ) ≤ ((100 : ℤ) : ℝ) := by
          rw [div_le_iff₀ hWpos, weight_sum_cast]
          push_cast
          linarith
        have hb := pyRound_le_of_le (n := 1) hq
        simpa using hb
    · rw [if_neg hw]
      norm_num

/-- C10 as amended: every per-route efficiency score lies in [0, 100] — both
the raw `_calculate_route_efficiency` value and the rounded
`efficiency_score` field stored on a composed route — and the fleet-level
score is the stop-count-weighted mean of the per-route scores rounded to one
decimal, `pyRound 1 (Σ score_i * stops_i / Σ stops_i)`, returning 0 for an
empty route set; consequently the fleet-level score also lies in [0, 100]. -/
theorem C10_efficiency_scores_weighted_mean_and_bounds
    (stops : List Stop) (td : ℚ) (ri : ℕ) (route : List ℕ) (wh : Warehouse)
    (dps : List DeliveryPoint) (m : List (List ℤ)) (s : ServiceState)
    (routes : List RouteRecord) (hne : routes ≠ [])
    (hw : 0 < (routes.map fun r => r.num_stops).sum)
    (hr : ∀ r ∈ routes, 0 ≤ r.efficiency_score ∧ r.efficiency_score ≤ 100) :
    (0 ≤ calculate_route_efficiency stops td ∧
      calculate_route_efficiency stops td ≤ 100) ∧
    (0 ≤ (build_one_route ri route wh dps m s).efficiency_score ∧
      (build_one_route ri route wh dps m s).efficiency_score ≤ 100) ∧
    calculate_efficiency_score [] = 0 ∧
    calculate_efficiency_score routes =
      pyRound 1 ((routes.map fun r =>
          r.efficiency_score * ((r.num_stops : ℕ) : ℝ)).sum /
        (((routes.map fun r => r.num_stops).sum : ℕ) : ℝ)) ∧
    (0 ≤ calculate_efficiency_score routes ∧
      calculate_efficiency_score routes ≤ 100) := by
  refine ⟨⟨calculate_route_efficiency_nonneg stops td,
      calculate_route_efficiency_le_100 stops td⟩, ⟨?_, ?_⟩, rfl, ?_,
      calculate_efficiency_score_bounds routes hr⟩
  · show 0 ≤ pyRound 1 (calculate_route_efficiency _ _)
    exact pyRound_nonneg (calculate_route_efficiency_nonneg _ _)
  · show pyRound 1 (calculate_route_efficiency _ _) ≤ 100
    have hb := pyRound_le_of_le (n := 1) (c := (100 : ℤ))
      (x := calculate_route_efficiency
        (build_stops ri wh dps m ((s.average_speed : ℤ) : ℚ)
          ((s.service_time_per_stop : ℤ) : ℚ) route 0 0)
        ((route_total_distance m route : ℤ) : ℚ))
      (by exact_mod_cast calculate_route_efficiency_le_100 _ _)
    simpa using hb
  · unfold calculate_efficiency_score
    rw [if_neg (by simpa [List.isEmpty_iff] using hne), if_pos hw]

/-- Witness for C10 at a concrete instance: an empty stop list and the
single route record with score 50 and weight 2. -/
theorem C10_witness :
    (([c10RouteB] : List RouteRecord) ≠ [] ∧
      0 < (([c10RouteB] : List RouteRecord).map fun r => r.num_stops).sum ∧
      ∀ r ∈ ([c10RouteB] : List RouteRecord),
        0 ≤ r.efficiency_score ∧ r.efficiency_score ≤ 100) ∧
    ((0 ≤ calculate_route_efficiency [] 0 ∧
      calculate_route_efficiency [] 0 ≤ 100) ∧
    (0 ≤ (build_one_route 0 [0, 0] ⟨0, 0, "WH", "Main"⟩ [] [[0]]
        initState).efficiency_score ∧
      (build_one_route 0 [0, 0] ⟨0, 0, "WH", "Main"⟩ [] [[0]]
        initState).efficiency_score ≤ 100) ∧
    calculate_efficiency_score [] = 0 ∧
    calculate_efficiency_score [c10RouteB] =
      pyRound 1 ((([c10RouteB] : List RouteRecord).map fun r =>
          r.efficiency_score * ((r.num_stops : ℕ) : ℝ)).sum /
        (((([c10RouteB] : List RouteRecord).map fun r => r.num_stops).sum : ℕ) : ℝ)) ∧
    (0 ≤ calculate_efficiency_score [c10RouteB] ∧
      calculate_efficiency_score [c10RouteB] ≤ 100)) :=
  ⟨⟨by simp, by simp [c10RouteB], by
      intro r hr
      simp only [List.mem_singleton] at hr
      subst hr
      exact ⟨by norm_num [c10RouteB], by norm_num [c10RouteB]⟩⟩,
    C10_efficiency_scores_weighted_mean_and_bounds [] 0 0 [0, 0]
      ⟨0, 0, "WH", "Main"⟩ [] [[0]] initState [c10RouteB]
      (by simp) (by simp [c10RouteB]) (by
        intro r hr
        simp only [List.mem_singleton] at hr
        subst hr
        exact ⟨by norm_num [c10RouteB], by norm_num [c10RouteB]⟩)⟩

/-- C10 counterexample to the exact weighted-mean equality: with per-route
scores 0 (weight 1) and 50 (weight 2) the weighted mean is 100/3, but the
fleet-level score the code returns is its one-decimal rounding 33.3. -/
theorem C10_counterexample :
    calculate_efficiency_score [c10RouteA, c10RouteB] = 333 / 10 ∧
      ((333 / 10 : ℝ) ≠
        (([c10RouteA, c10RouteB] : List RouteRecord).map fun r =>
            r.efficiency_score * ((r.num_stops : ℕ) : ℝ)).sum /
          (((([c10RouteA, c10RouteB] : List RouteRecord).map
              fun r => r.num_stops).sum : ℕ) : ℝ)) := by
  have hmean : (([c10RouteA, c10RouteB] : List RouteRecord).map fun r =>
      r.efficiency_score * ((r.num_stops : ℕ) : ℝ)).sum /
      (((([c10RouteA, c10RouteB] : List RouteRecord).map
        fun r => r.num_stops).sum : ℕ) : ℝ) = 100 / 3 := by
    simp [c10RouteA, c10RouteB]
    norm_num
  have hfl : ⌊(100 / 3 * 10 ^ 1 : ℝ)⌋ = 333 := by
    rw [Int.floor_eq_iff]
    constructor <;> norm_num
  have hrnd : roundHalfEven (100 / 3 * 10 ^ 1 : ℝ) = 333 := by
    unfold roundHalfEven
    rw [hfl]
    rw [if_pos (by push_cast; norm_num)]
  constructor
  · unfold calculate_efficiency_score
    rw [if_neg (by simp), if_pos (by simp [c10RouteA, c10RouteB])]
    rw [hmean]
    unfold pyRound
    rw [hrnd]
    norm_num
  · rw [hmean]
    norm_num

end SupplyNet
